import Mathlib

/-!
Shallow embedding of the py-agent client core: the cost guardian
(budget checks, spend tracking, auto reset), the router (keyword
classification and the static model table), the telemetry collector
(event log and running statistics), the savings-percent property of
RouteResponse, and the Agent orchestration pipeline. Python floats are
modelled as exact rationals; wall-clock timestamps as rational seconds,
with elapsed whole days obtained by floor division by 86400 mirroring
timedelta.days; Python exceptions as Except values paired with the
post-call state (mutation performed before a raise is kept).
-/

namespace PyAgent

/-- One entry of CostGuardian.spend_history. -/
structure SpendEntry where
  timestamp : String
  cost : ℚ
  daily_total : ℚ
  monthly_total : ℚ
deriving DecidableEq

/-- The BudgetExceededError exception with its carried attributes. -/
structure BudgetExceededError where
  message : String
  budget_type : String
  current_spend : ℚ
  budget_limit : ℚ
  requested_cost : ℚ
deriving DecidableEq

/-- Mutable state of a CostGuardian instance. -/
structure CostGuardian where
  daily_budget : ℚ
  monthly_budget : ℚ
  current_daily_spend : ℚ
  current_monthly_spend : ℚ
  spend_history : List SpendEntry
  last_daily_reset : ℤ
deriving DecidableEq

/-- CostGuardian.__init__ with explicit budgets, at construction time now. -/
def CostGuardian.init (daily_budget monthly_budget : ℚ) (now : ℤ) : CostGuardian :=
  { daily_budget := daily_budget
    monthly_budget := monthly_budget
    current_daily_spend := 0
    current_monthly_spend := 0
    spend_history := []
    last_daily_reset := now }

/-- Whole days elapsed between two timestamps in seconds, as in
(now - last).days on Python timedelta: floor division by 86400. -/
def daysElapsed (last now : ℤ) : ℤ := (now - last).fdiv 86400

/-- CostGuardian.reset_daily_budget: zero the daily spend and stamp the reset time. -/
def CostGuardian.reset_daily_budget (s : CostGuardian) (now : ℤ) : CostGuardian :=
  { s with current_daily_spend := 0, last_daily_reset := now }

/-- CostGuardian.reset_monthly_budget: zero the monthly spend. -/
def CostGuardian.reset_monthly_budget (s : CostGuardian) : CostGuardian :=
  { s with current_monthly_spend := 0 }

/-- CostGuardian.check_request: auto-reset the daily budget if at least one
day has elapsed, then reject when the estimated cost would push the daily
total over the daily budget, else when it would push the monthly total over
the monthly budget, else admit. The state component records mutation done by
the auto reset; a raise is an Except.error value. -/
def CostGuardian.check_request (s0 : CostGuardian) (now : ℤ) (estimated_cost : ℚ) :
    Except BudgetExceededError Bool × CostGuardian :=
  let s := if 1 ≤ daysElapsed s0.last_daily_reset now then s0.reset_daily_budget now else s0
  if s.current_daily_spend + estimated_cost > s.daily_budget then
    (.error { message := "Daily budget exceeded"
              budget_type := "daily"
              current_spend := s.current_daily_spend
              budget_limit := s.daily_budget
              requested_cost := estimated_cost }, s)
  else if s.current_monthly_spend + estimated_cost > s.monthly_budget then
    (.error { message := "Monthly budget exceeded"
              budget_type := "monthly"
              current_spend := s.current_monthly_spend
              budget_limit := s.monthly_budget
              requested_cost := estimated_cost }, s)
  else (.ok true, s)

/-- CostGuardian.track_spend: add the actual cost to both running totals and
append a history entry recording the post-update totals with a timestamp. -/
def CostGuardian.track_spend (s : CostGuardian) (now_iso : String) (actual_cost : ℚ) :
    CostGuardian :=
  let daily := s.current_daily_spend + actual_cost
  let monthly := s.current_monthly_spend + actual_cost
  { s with
    current_daily_spend := daily
    current_monthly_spend := monthly
    spend_history := s.spend_history ++
      [{ timestamp := now_iso, cost := actual_cost,
         daily_total := daily, monthly_total := monthly }] }

/-- CostGuardian.get_usage_percentage: each percentage is spend over limit
times 100; Python float division raises ZeroDivisionError on a zero limit,
modelled as none (the daily quotient is computed first). -/
def CostGuardian.get_usage_percentage (s : CostGuardian) : Option (ℚ × ℚ) :=
  if s.daily_budget = 0 then none
  else if s.monthly_budget = 0 then none
  else some ((s.current_daily_spend / s.daily_budget) * 100,
             (s.current_monthly_spend / s.monthly_budget) * 100)

/- Router -/

/-- Does the character list start with the given pattern list. -/
def startsWithChars : List Char → List Char → Bool
  | _, [] => true
  | [], _ :: _ => false
  | c :: cs, d :: ds => c == d && startsWithChars cs ds

/-- Does the character list contain the pattern list as a contiguous run. -/
def containsChars : List Char → List Char → Bool
  | [], needle => needle.isEmpty
  | c :: rest, needle => startsWithChars (c :: rest) needle || containsChars rest needle

/-- Python substring membership: needle in hay. -/
def strContains (hay needle : String) : Bool :=
  containsChars hay.data needle.data

/-- Python str.lower(): lower-case the string character by character. -/
def strToLower (s : String) : String := String.mk (s.data.map Char.toLower)

/-- Helper for counting whitespace-separated words: the flag tells whether
the previous character was inside a word. -/
def countWordsAux : List Char → Bool → Nat
  | [], _ => 0
  | c :: cs, inWord =>
    if c.isWhitespace then countWordsAux cs false
    else (if inWord then 0 else 1) + countWordsAux cs true

/-- Length of Python str.split() with no argument: number of maximal runs
of non-whitespace characters. -/
def splitLen (s : String) : Nat := countWordsAux s.data false

/-- The routing decision dictionary returned by Router.route_request. -/
structure RoutingDecision where
  model : String
  provider : String
  max_cost : ℚ
  routing_reason : String
deriving DecidableEq

/-- Router.routing_rules: the static category table, with the simple_qa
entry as the fallback for an unknown category key. -/
def routingRule (category : String) : String × ℚ :=
  if category = "simple_qa" then ("gpt-3.5-turbo", 0.01)
  else if category = "code_generation" then ("gpt-4", 0.05)
  else if category = "analysis" then ("deepseek-coder", 0.02)
  else if category = "creative" then ("claude-3-sonnet", 0.03)
  else ("gpt-3.5-turbo", 0.01)

/-- Router._get_provider_for_model: provider by substring match on the
model name, defaulting to openai. -/
def get_provider_for_model (model : String) : String :=
  if strContains model "gpt" then "openai"
  else if strContains model "claude" then "anthropic"
  else if strContains model "deepseek" then "deepseek"
  else "openai"

/-- Router.route_request: first-match keyword classification over the
lower-cased prompt, then the static table entry for the category. The
optimize_for and max_cost parameters are accepted but unused. -/
def route_request (prompt : String) (optimize_for : String) (max_cost : Option ℚ) :
    RoutingDecision :=
  let lower := strToLower prompt
  let category :=
    if strContains lower "code" || strContains lower "function" then "code_generation"
    else if strContains lower "analyze" || strContains lower "analysis" then "analysis"
    else if decide (splitLen prompt < 20) && strContains prompt "?" then "simple_qa"
    else "creative"
  let rule := routingRule category
  { model := rule.1
    provider := get_provider_for_model rule.1
    max_cost := rule.2
    routing_reason := category ++ "_optimized" }

/- Telemetry -/

/-- A telemetry event dictionary; absent keys are none. -/
structure TelemetryEvent where
  request_id : Option String
  cost : Option ℚ
  tokens_used : Option ℤ
  model : Option String
  quality_score : Option ℚ
  error : Option String
  timestamp : Option String
deriving DecidableEq

/-- The stats dictionary of TelemetryCollector. -/
structure TelemetryStats where
  total_requests : ℕ
  total_cost : ℚ
  total_tokens : ℤ
  average_cost : ℚ
  average_quality : ℚ
  average_response_time : ℚ
  cost_savings : ℚ
  savings_percent : ℚ
deriving DecidableEq

/-- The all-zero initial statistics. -/
def initStats : TelemetryStats :=
  { total_requests := 0, total_cost := 0, total_tokens := 0, average_cost := 0,
    average_quality := 0, average_response_time := 0, cost_savings := 0,
    savings_percent := 0 }

/-- Mutable state of a TelemetryCollector instance. -/
structure TelemetryCollector where
  events : List TelemetryEvent
  stats : TelemetryStats
deriving DecidableEq

/-- TelemetryCollector.__init__. -/
def TelemetryCollector.init : TelemetryCollector :=
  { events := [], stats := initStats }

/-- TelemetryCollector._update_stats: always bump the request count; when a
cost key is present add it to the total and recompute the average over the
new count; when a tokens_used key is present add it to the token total. -/
def update_stats (s : TelemetryStats) (e : TelemetryEvent) : TelemetryStats :=
  let s1 := { s with total_requests := s.total_requests + 1 }
  let s2 :=
    match e.cost with
    | some c =>
      { s1 with
        total_cost := s1.total_cost + c
        average_cost := (s1.total_cost + c) / (s1.total_requests : ℚ) }
    | none => s1
  match e.tokens_used with
  | some k => { s2 with total_tokens := s2.total_tokens + k }
  | none => s2

/-- TelemetryCollector.record_request: stamp the event with the current
timestamp, append it to the event log, and update the statistics. -/
def TelemetryCollector.record_request (t : TelemetryCollector) (now_iso : String)
    (e : TelemetryEvent) : TelemetryCollector :=
  let stamped := { e with timestamp := some now_iso }
  { events := t.events ++ [stamped], stats := update_stats t.stats stamped }

/- RouteResponse savings -/

/-- RouteResponse.savings_percent: when baseline_cost is truthy and positive,
percentage saved against the baseline, else 0. -/
def savings_percent (cost : ℚ) (baseline_cost : Option ℚ) : ℚ :=
  match baseline_cost with
  | some b => if b ≠ 0 ∧ b > 0 then ((b - cost) / b) * 100 else 0
  | none => 0

/- Agent orchestration -/

/-- The mock response dictionary built inside Agent._execute_route. -/
structure MockResponse where
  response : String
  model : String
  provider : String
  cost : ℚ
  tokens_used : ℕ
  quality_score : ℚ
  routing_reason : String
deriving DecidableEq

/-- The result dictionary returned by Agent.route on success. -/
structure RouteResult where
  response : String
  model : String
  provider : String
  cost : ℚ
  tokens_used : ℕ
  quality_score : ℚ
  routing_reason : String
  request_id : String
  response_time : ℚ
deriving DecidableEq

/-- The Agent state the routing path touches: its guardian and telemetry. -/
structure Agent where
  cost_guardian : CostGuardian
  telemetry : TelemetryCollector
deriving DecidableEq

/-- Python str(e) on a BudgetExceededError: its message. -/
def strOfError (e : BudgetExceededError) : String := e.message

/-- Agent._execute_route: routing decision, budget check with the decision
ceiling as estimated cost, mock provider response at 80 percent of the
estimate, then track_spend. A budget raise propagates with the guardian
state as mutated so far. -/
def Agent.execute_route (a : Agent) (now : ℤ) (now_iso : String) (prompt : String)
    (optimize_for : String) (max_cost : Option ℚ) :
    Except BudgetExceededError MockResponse × Agent :=
  let decision := route_request prompt optimize_for max_cost
  let estimated_cost := decision.max_cost
  match a.cost_guardian.check_request now estimated_cost with
  | (.error e, g) => (.error e, { a with cost_guardian := g })
  | (.ok _, g) =>
    let cost := estimated_cost * 0.8
    let resp : MockResponse :=
      { response := "Mock response for: " ++ String.mk (prompt.data.take 50) ++ "..."
        model := decision.model
        provider := decision.provider
        cost := cost
        tokens_used := splitLen prompt + 20
        quality_score := 0.85
        routing_reason := decision.routing_reason }
    (.ok resp, { a with cost_guardian := g.track_spend now_iso cost })

/-- Agent.route: run the pipeline; on success attach the request id and the
elapsed time and record a success event carrying cost, tokens, model and
quality; on any exception record an error event carrying the request id and
the error text, and re-raise the same exception. -/
def Agent.route (a : Agent) (now : ℤ) (now_iso : String) (request_id : String)
    (elapsed : ℚ) (prompt : String) (optimize_for : String) (max_cost : Option ℚ) :
    Except BudgetExceededError RouteResult × Agent :=
  match a.execute_route now now_iso prompt optimize_for max_cost with
  | (.ok r, a1) =>
    let result : RouteResult :=
      { response := r.response, model := r.model, provider := r.provider,
        cost := r.cost, tokens_used := r.tokens_used,
        quality_score := r.quality_score, routing_reason := r.routing_reason,
        request_id := request_id, response_time := elapsed }
    let ev : TelemetryEvent :=
      { request_id := some request_id, cost := some r.cost,
        tokens_used := some (r.tokens_used : ℤ), model := some r.model,
        quality_score := some r.quality_score, error := none, timestamp := none }
    (.ok result, { a1 with telemetry := a1.telemetry.record_request now_iso ev })
  | (.error e, a1) =>
    let ev : TelemetryEvent :=
      { request_id := some request_id, cost := none, tokens_used := none,
        model := none, quality_score := none, error := some (strOfError e),
        timestamp := none }
    (.error e, { a1 with telemetry := a1.telemetry.record_request now_iso ev })

/- Helper definitions used by the statements -/

/-- The admitted value of a check_request outcome, none on a raise. -/
def ok_of : Except BudgetExceededError Bool → Option Bool
  | .ok b => some b
  | .error _ => none

/-- The carried error of a check_request outcome, none on success. -/
def err_of : Except BudgetExceededError Bool → Option BudgetExceededError
  | .error e => some e
  | .ok _ => none

/-- The budget_type of the raised error, none on success. -/
def budget_type_of : Except BudgetExceededError Bool → Option String
  | .error e => some e.budget_type
  | .ok _ => none

/-- A concrete guardian: budgets 100 and 1000, daily spend 95, monthly
spend 0, empty history, last reset at time 0. -/
def demoGuardian : CostGuardian :=
  { daily_budget := 100, monthly_budget := 1000, current_daily_spend := 95,
    current_monthly_spend := 0, spend_history := [], last_daily_reset := 0 }

/-- An event carrying only a cost field. -/
def costEvent (c : ℚ) : TelemetryEvent :=
  { request_id := none, cost := some c, tokens_used := none, model := none,
    quality_score := none, error := none, timestamp := none }

/- Theorems -/

/-- Zero whole days elapse between a timestamp and itself. -/
theorem daysElapsed_self (t : ℤ) : daysElapsed t t = 0 := by
  unfold daysElapsed
  rw [sub_self, Int.zero_fdiv]

/-- Claim C1: with less than one day since the last daily reset, check_request
admits exactly when both the daily and the monthly totals stay within their
budgets after adding the cost; it raises a daily-budget-exceeded error exactly
when the daily total would strictly exceed the daily budget, and a
monthly-budget-exceeded error exactly when the daily check passes but the
monthly total would strictly exceed the monthly budget. -/
theorem check_request_budget_boundary (s : CostGuardian) (now : ℤ) (c : ℚ)
    (h : daysElapsed s.last_daily_reset now < 1) :
    (ok_of (s.check_request now c).1 = some true ↔
      s.current_daily_spend + c ≤ s.daily_budget ∧
      s.current_monthly_spend + c ≤ s.monthly_budget) ∧
    (budget_type_of (s.check_request now c).1 = some "daily" ↔
      s.daily_budget < s.current_daily_spend + c) ∧
    (budget_type_of (s.check_request now c).1 = some "monthly" ↔
      s.current_daily_spend + c ≤ s.daily_budget ∧
      s.monthly_budget < s.current_monthly_spend + c) := by
  have hres : ¬ (1 ≤ daysElapsed s.last_daily_reset now) := not_le.mpr h
  simp only [CostGuardian.check_request, hres, if_false, gt_iff_lt]
  by_cases h1 : s.daily_budget < s.current_daily_spend + c
  · simp [ok_of, budget_type_of, h1, not_le.mpr h1]
  · by_cases h2 : s.monthly_budget < s.current_monthly_spend + c
    · simp [ok_of, budget_type_of, h1, h2, not_le.mpr h2, le_of_not_lt h1]
    · simp [ok_of, budget_type_of, h1, h2, le_of_not_lt h1, le_of_not_lt h2]

/-- Witness for C1: for the demo guardian at time 0 with cost 5, the request
that brings the daily spend exactly to the limit is admitted. -/
theorem check_request_budget_boundary_witness :
    daysElapsed demoGuardian.last_daily_reset 0 < 1 ∧
    ((ok_of (demoGuardian.check_request 0 5).1 = some true ↔
      demoGuardian.current_daily_spend + 5 ≤ demoGuardian.daily_budget ∧
      demoGuardian.current_monthly_spend + 5 ≤ demoGuardian.monthly_budget) ∧
    (budget_type_of (demoGuardian.check_request 0 5).1 = some "daily" ↔
      demoGuardian.daily_budget < demoGuardian.current_daily_spend + 5) ∧
    (budget_type_of (demoGuardian.check_request 0 5).1 = some "monthly" ↔
      demoGuardian.current_daily_spend + 5 ≤ demoGuardian.daily_budget ∧
      demoGuardian.monthly_budget < demoGuardian.current_monthly_spend + 5)) ∧
    ok_of (demoGuardian.check_request 0 5).1 = some true :=
  ⟨by decide, check_request_budget_boundary demoGuardian 0 5 (by decide),
   by norm_num [CostGuardian.check_request, demoGuardian, daysElapsed,
     Int.zero_fdiv, ok_of]⟩

/-- The state component of check_request: the auto reset when at least one
day elapsed, the unchanged state otherwise. -/
theorem check_request_snd (s : CostGuardian) (now : ℤ) (c : ℚ) :
    (s.check_request now c).2 =
      if 1 ≤ daysElapsed s.last_daily_reset now then s.reset_daily_budget now
      else s := by
  simp only [CostGuardian.check_request]
  split <;> split
  · rfl
  · split <;> rfl
  · rfl
  · split <;> rfl

/-- Claim C4: with at least one day since the last daily reset, check_request
zeroes the daily spend and stamps the reset time before evaluating admission:
the whole call is the same as check_request on the reset state. -/
theorem check_request_auto_reset (s : CostGuardian) (now : ℤ) (c : ℚ)
    (h : 1 ≤ daysElapsed s.last_daily_reset now) :
    (s.check_request now c).2.current_daily_spend = 0 ∧
    (s.check_request now c).2.last_daily_reset = now ∧
    s.check_request now c = (s.reset_daily_budget now).check_request now c := by
  have hs : daysElapsed (s.reset_daily_budget now).last_daily_reset now = 0 :=
    daysElapsed_self now
  have hcond : ¬ (1 ≤ daysElapsed (s.reset_daily_budget now).last_daily_reset now) := by
    rw [hs]; decide
  refine ⟨?_, ?_, ?_⟩
  · rw [check_request_snd, if_pos h]; rfl
  · rw [check_request_snd, if_pos h]; rfl
  · simp only [CostGuardian.check_request, h, hcond, if_true, if_false]

/-- Witness for C4: the demo guardian checked one full day after its last
reset has its daily spend zeroed and its reset time stamped. -/
theorem check_request_auto_reset_witness :
    1 ≤ daysElapsed demoGuardian.last_daily_reset 86400 ∧
    ((demoGuardian.check_request 86400 5).2.current_daily_spend = 0 ∧
     (demoGuardian.check_request 86400 5).2.last_daily_reset = 86400 ∧
     demoGuardian.check_request 86400 5 =
       (demoGuardian.reset_daily_budget 86400).check_request 86400 5) :=
  ⟨by decide, check_request_auto_reset demoGuardian 86400 5 (by decide)⟩

/-- Claim C6: with less than one day since the last daily reset,
check_request leaves the guardian state unchanged whether it admits or
rejects, and a raised error carries the requested cost together with the
current spend and the limit of the exceeded budget; the demo scenario is
settled in the witness. -/
theorem check_request_no_mutation (s : CostGuardian) (now : ℤ) (c : ℚ)
    (h : daysElapsed s.last_daily_reset now < 1) :
    (s.check_request now c).2 = s ∧
    ∀ e, (s.check_request now c).1 = .error e →
      e.requested_cost = c ∧
      (e.budget_type = "daily" → e.current_spend = s.current_daily_spend ∧
        e.budget_limit = s.daily_budget) ∧
      (e.budget_type = "monthly" → e.current_spend = s.current_monthly_spend ∧
        e.budget_limit = s.monthly_budget) := by
  have hres : ¬ (1 ≤ daysElapsed s.last_daily_reset now) := not_le.mpr h
  constructor
  · rw [check_request_snd, if_neg hres]
  · intro e he
    simp only [CostGuardian.check_request, hres, if_false] at he
    by_cases h1 : s.current_daily_spend + c > s.daily_budget
    · rw [if_pos h1] at he
      simp only [Except.error.injEq] at he
      subst he
      exact ⟨rfl, fun _ => ⟨rfl, rfl⟩, fun hm => by simp at hm⟩
    · rw [if_neg h1] at he
      by_cases h2 : s.current_monthly_spend + c > s.monthly_budget
      · rw [if_pos h2] at he
        simp only [Except.error.injEq] at he
        subst he
        exact ⟨rfl, fun hd => by simp at hd, fun _ => ⟨rfl, rfl⟩⟩
      · rw [if_neg h2] at he
        simp at he

/-- Witness for C6: the spec scenario: budgets 100 and 1000, daily spend 95,
check_request of 10 raises the daily error carrying spend 95, limit 100 and
requested cost 10, and the state is unchanged. -/
theorem check_request_no_mutation_witness :
    daysElapsed demoGuardian.last_daily_reset 0 < 1 ∧
    ((demoGuardian.check_request 0 10).2 = demoGuardian ∧
     ∀ e, (demoGuardian.check_request 0 10).1 = .error e →
       e.requested_cost = 10 ∧
       (e.budget_type = "daily" → e.current_spend = demoGuardian.current_daily_spend ∧
         e.budget_limit = demoGuardian.daily_budget) ∧
       (e.budget_type = "monthly" → e.current_spend = demoGuardian.current_monthly_spend ∧
         e.budget_limit = demoGuardian.monthly_budget)) ∧
    err_of (demoGuardian.check_request 0 10).1 =
      some { message := "Daily budget exceeded", budget_type := "daily",
             current_spend := 95, budget_limit := 100, requested_cost := 10 } :=
  ⟨by decide, check_request_no_mutation demoGuardian 0 10 (by decide),
   by norm_num [CostGuardian.check_request, demoGuardian, daysElapsed,
     Int.zero_fdiv, err_of]⟩

/-- Claim C3: track_spend adds the cost to both running totals, hence for a
positive cost strictly increases both; it appends exactly one history entry
whose daily_total and monthly_total equal the post-update totals; the budget
limits are unchanged. -/
theorem track_spend_monotone (s : CostGuardian) (ts : String) (c : ℚ)
    (h : 0 < c) :
    (s.track_spend ts c).current_daily_spend = s.current_daily_spend + c ∧
    s.current_daily_spend < (s.track_spend ts c).current_daily_spend ∧
    (s.track_spend ts c).current_monthly_spend = s.current_monthly_spend + c ∧
    s.current_monthly_spend < (s.track_spend ts c).current_monthly_spend ∧
    (s.track_spend ts c).spend_history = s.spend_history ++
      [{ timestamp := ts, cost := c,
         daily_total := (s.track_spend ts c).current_daily_spend,
         monthly_total := (s.track_spend ts c).current_monthly_spend }] ∧
    (s.track_spend ts c).daily_budget = s.daily_budget ∧
    (s.track_spend ts c).monthly_budget = s.monthly_budget := by
  refine ⟨rfl, ?_, rfl, ?_, rfl, rfl, rfl⟩ <;>
    simp [CostGuardian.track_spend] <;> linarith

/-- Witness for C3: tracking a cost of 2 on the demo guardian. -/
theorem track_spend_monotone_witness :
    (0:ℚ) < 2 ∧
    ((demoGuardian.track_spend "t" 2).current_daily_spend =
      demoGuardian.current_daily_spend + 2 ∧
    demoGuardian.current_daily_spend <
      (demoGuardian.track_spend "t" 2).current_daily_spend ∧
    (demoGuardian.track_spend "t" 2).current_monthly_spend =
      demoGuardian.current_monthly_spend + 2 ∧
    demoGuardian.current_monthly_spend <
      (demoGuardian.track_spend "t" 2).current_monthly_spend ∧
    (demoGuardian.track_spend "t" 2).spend_history =
      demoGuardian.spend_history ++
      [{ timestamp := "t", cost := 2,
         daily_total := (demoGuardian.track_spend "t" 2).current_daily_spend,
         monthly_total := (demoGuardian.track_spend "t" 2).current_monthly_spend }] ∧
    (demoGuardian.track_spend "t" 2).daily_budget = demoGuardian.daily_budget ∧
    (demoGuardian.track_spend "t" 2).monthly_budget = demoGuardian.monthly_budget) :=
  ⟨by norm_num, track_spend_monotone demoGuardian "t" 2 (by norm_num)⟩

/-- Claim C2: categories are picked by a first-match chain over the
lower-cased prompt — code or function gives code_generation, else analyze or
analysis gives analysis, else fewer than 20 words with a question mark gives
simple_qa, else creative — and each returns the fixed table entry with its
provider derived from the model name and the category-optimized reason; the
spec prompt about writing a Python function routes to gpt-4 at openai. -/
theorem route_request_classification :
    (∀ (p o : String) (m : Option ℚ),
      (strContains (strToLower p) "code" || strContains (strToLower p) "function") = true →
      route_request p o m =
        { model := "gpt-4", provider := "openai", max_cost := 0.05,
          routing_reason := "code_generation_optimized" }) ∧
    (∀ (p o : String) (m : Option ℚ),
      (strContains (strToLower p) "code" || strContains (strToLower p) "function") = false →
      (strContains (strToLower p) "analyze" || strContains (strToLower p) "analysis") = true →
      route_request p o m =
        { model := "deepseek-coder", provider := "deepseek", max_cost := 0.02,
          routing_reason := "analysis_optimized" }) ∧
    (∀ (p o : String) (m : Option ℚ),
      (strContains (strToLower p) "code" || strContains (strToLower p) "function") = false →
      (strContains (strToLower p) "analyze" || strContains (strToLower p) "analysis") = false →
      splitLen p < 20 → strContains p "?" = true →
      route_request p o m =
        { model := "gpt-3.5-turbo", provider := "openai", max_cost := 0.01,
          routing_reason := "simple_qa_optimized" }) ∧
    (∀ (p o : String) (m : Option ℚ),
      (strContains (strToLower p) "code" || strContains (strToLower p) "function") = false →
      (strContains (strToLower p) "analyze" || strContains (strToLower p) "analysis") = false →
      (decide (splitLen p < 20) && strContains p "?") = false →
      route_request p o m =
        { model := "claude-3-sonnet", provider := "anthropic", max_cost := 0.03,
          routing_reason := "creative_optimized" }) ∧
    route_request "Write a Python function to reverse a string" "balanced" none =
      { model := "gpt-4", provider := "openai", max_cost := 0.05,
        routing_reason := "code_generation_optimized" } := by
  refine ⟨?_, ?_, ?_, ?_, ?_⟩
  · intro p o m h1
    simp only [route_request, h1, if_true]
    rfl
  · intro p o m h1 h2
    simp only [route_request, h1, h2, Bool.false_eq_true, if_false, if_true]
    rfl
  · intro p o m h1 h2 h3 h4
    simp only [route_request, h1, h2, h3, h4, decide_True, Bool.true_and,
      Bool.false_eq_true, if_false, if_true]
    rfl
  · intro p o m h1 h2 h3
    simp only [route_request, h1, h2, h3, Bool.false_eq_true, if_false]
    rfl
  · rfl

/-- Claim C7: the routing decision depends only on the prompt; optimize_for
and max_cost do not influence it. -/
theorem route_request_ignores_mode (p : String) (o1 o2 : String)
    (m1 m2 : Option ℚ) :
    route_request p o1 m1 = route_request p o2 m2 := rfl

/-- Claim C8: savings_percent is the relative saving against the baseline
cost times 100 when the baseline is positive, and 0 when the baseline is
absent or not positive; cost 0.001 against baseline 0.002 saves 50 percent. -/
theorem savings_percent_formula :
    (∀ (cost b : ℚ), 0 < b → savings_percent cost (some b) = ((b - cost) / b) * 100) ∧
    (∀ (cost b : ℚ), b ≤ 0 → savings_percent cost (some b) = 0) ∧
    (∀ cost : ℚ, savings_percent cost none = 0) ∧
    savings_percent 0.001 (some 0.002) = 50 := by
  refine ⟨?_, ?_, fun cost => rfl, ?_⟩
  · intro cost b hb
    simp only [savings_percent]
    rw [if_pos ⟨ne_of_gt hb, hb⟩]
  · intro cost b hb
    simp only [savings_percent]
    rw [if_neg]
    rintro ⟨-, hb2⟩
    exact absurd hb2 (not_lt.mpr hb)
  · show savings_percent 0.001 (some 0.002) = 50
    norm_num [savings_percent]

/-- Claim C5: record_request appends the stamped event to the log and bumps
the request count by one; exactly when a cost field is present, the total
cost grows by it and the average is recomputed over the new count; exactly
when a tokens_used field is present, the token total grows by it; every
other aggregate field is unchanged. Recording costs 0.01, 0.02, 0.03 from
the initial state gives total 0.06, average 0.02, three requests. -/
theorem record_request_stats :
    (∀ (t : TelemetryCollector) (ts : String) (e : TelemetryEvent),
      (t.record_request ts e).events = t.events ++ [{ e with timestamp := some ts }] ∧
      (t.record_request ts e).stats.total_requests = t.stats.total_requests + 1 ∧
      (∀ c, e.cost = some c →
        (t.record_request ts e).stats.total_cost = t.stats.total_cost + c ∧
        (t.record_request ts e).stats.average_cost =
          (t.stats.total_cost + c) / ((t.stats.total_requests + 1 : ℕ) : ℚ)) ∧
      (e.cost = none →
        (t.record_request ts e).stats.total_cost = t.stats.total_cost ∧
        (t.record_request ts e).stats.average_cost = t.stats.average_cost) ∧
      (∀ k, e.tokens_used = some k →
        (t.record_request ts e).stats.total_tokens = t.stats.total_tokens + k) ∧
      (e.tokens_used = none →
        (t.record_request ts e).stats.total_tokens = t.stats.total_tokens) ∧
      (t.record_request ts e).stats.average_quality = t.stats.average_quality ∧
      (t.record_request ts e).stats.average_response_time =
        t.stats.average_response_time ∧
      (t.record_request ts e).stats.cost_savings = t.stats.cost_savings ∧
      (t.record_request ts e).stats.savings_percent = t.stats.savings_percent) ∧
    (((TelemetryCollector.init.record_request "t1" (costEvent 0.01)).record_request
        "t2" (costEvent 0.02)).record_request "t3" (costEvent 0.03)).stats.total_cost
      = 0.06 ∧
    (((TelemetryCollector.init.record_request "t1" (costEvent 0.01)).record_request
        "t2" (costEvent 0.02)).record_request "t3" (costEvent 0.03)).stats.average_cost
      = 0.02 ∧
    (((TelemetryCollector.init.record_request "t1" (costEvent 0.01)).record_request
        "t2" (costEvent 0.02)).record_request "t3" (costEvent 0.03)).stats.total_requests
      = 3 := by
  refine ⟨?_, ?_, ?_, ?_⟩
  · intro t ts e
    cases hc : e.cost <;> cases hk : e.tokens_used <;>
      simp [TelemetryCollector.record_request, update_stats, hc, hk]
  · norm_num [TelemetryCollector.record_request, update_stats, costEvent,
      TelemetryCollector.init, initStats]
  · norm_num [TelemetryCollector.record_request, update_stats, costEvent,
      TelemetryCollector.init, initStats]
  · norm_num [TelemetryCollector.record_request, update_stats, costEvent,
      TelemetryCollector.init, initStats]

/-- Counterexample to C9: on a guardian with daily budget 0, the division by
the zero limit fails, so get_usage_percentage returns no pair at all. -/
theorem get_usage_percentage_zero_budget_fails :
    (CostGuardian.init 0 1000 0).get_usage_percentage = none ∧
    ¬ ∃ pcts, (CostGuardian.init 0 1000 0).get_usage_percentage = some pcts := by
  constructor
  · norm_num [CostGuardian.get_usage_percentage, CostGuardian.init]
  · rintro ⟨pcts, hp⟩
    norm_num [CostGuardian.get_usage_percentage, CostGuardian.init] at hp
    exact Option.noConfusion hp

/-- Claim C9 as amended: on every guardian state whose daily and monthly
budgets are nonzero, get_usage_percentage returns the pair of spend over
limit times 100; a zero budget makes the division fail. -/
theorem get_usage_percentage_nonzero (s : CostGuardian)
    (hd : s.daily_budget ≠ 0) (hm : s.monthly_budget ≠ 0) :
    s.get_usage_percentage =
      some ((s.current_daily_spend / s.daily_budget) * 100,
            (s.current_monthly_spend / s.monthly_budget) * 100) := by
  simp [CostGuardian.get_usage_percentage, hd, hm]

/-- Witness for amended C9: the demo guardian with budgets 100 and 1000. -/
theorem get_usage_percentage_nonzero_witness :
    demoGuardian.daily_budget ≠ 0 ∧ demoGuardian.monthly_budget ≠ 0 ∧
    demoGuardian.get_usage_percentage =
      some ((demoGuardian.current_daily_spend / demoGuardian.daily_budget) * 100,
            (demoGuardian.current_monthly_spend / demoGuardian.monthly_budget) * 100) :=
  ⟨by norm_num [demoGuardian], by norm_num [demoGuardian],
   get_usage_percentage_nonzero demoGuardian (by norm_num [demoGuardian])
     (by norm_num [demoGuardian])⟩

/-- The telemetry component of the Agent state is untouched by
execute_route: only route itself records events. -/
theorem execute_route_telemetry (a : Agent) (now : ℤ) (ni p o : String)
    (mc : Option ℚ) :
    (a.execute_route now ni p o mc).2.telemetry = a.telemetry := by
  simp only [Agent.execute_route]
  rcases hx : a.cost_guardian.check_request now (route_request p o mc).max_cost
    with ⟨r, g⟩
  cases r <;> rfl

/-- Claim C10: every Agent.route call bumps the telemetry request count by
exactly one, on success and on raise alike; on a raise, the error propagated
is exactly the one the pipeline produced, and the recorded event carries
the request id and the error text. -/
theorem route_telemetry_accounting (a : Agent) (now : ℤ) (ni rid : String)
    (el : ℚ) (p o : String) (mc : Option ℚ) :
    (a.route now ni rid el p o mc).2.telemetry.stats.total_requests =
      a.telemetry.stats.total_requests + 1 ∧
    ∀ e, (a.route now ni rid el p o mc).1 = .error e →
      (a.execute_route now ni p o mc).1 = .error e ∧
      (a.route now ni rid el p o mc).2.telemetry.events =
        a.telemetry.events ++
          [{ request_id := some rid, cost := none, tokens_used := none,
             model := none, quality_score := none, error := some e.message,
             timestamp := some ni }] := by
  have htel := execute_route_telemetry a now ni p o mc
  rcases hx : a.execute_route now ni p o mc with ⟨r, a1⟩
  rw [hx] at htel
  have h2 : a1.telemetry = a.telemetry := htel
  cases r with
  | ok v =>
    constructor
    · simp [Agent.route, hx, TelemetryCollector.record_request, update_stats, h2]
    · intro e he
      simp [Agent.route, hx] at he
  | error err =>
    constructor
    · simp [Agent.route, hx, TelemetryCollector.record_request, update_stats, h2]
    · intro e he
      simp [Agent.route, hx] at he
      subst he
      simp [Agent.route, hx, TelemetryCollector.record_request, update_stats,
        strOfError, h2]

end PyAgent
